import Mathlib

/-!
Verification development for the sport-websockets backend.

The definitions below are a shallow embedding of the request-validation layer
(src/validation/matches.js, written against zod 4) and of the two database
tables declared in src/db/schema.js.  JavaScript numbers are modelled as exact
rationals (with separate NaN and infinity values); binary64 rounding, overflow
to infinity and underflow to zero are not modelled, which is noted on the
conversion functions it concerns.
-/

set_option maxRecDepth 4000

namespace SportWS

/-- JavaScript number values as produced by the Number conversion: NaN, the two
infinities, or a finite value.  Finite values are exact rationals. -/
inductive JSNum where
  | nan
  | posInf
  | negInf
  | val (q : ℚ)
deriving DecidableEq, Repr

/-- JSON primitive values as they arrive in a parsed request body or query
object.  Composite JSON values (arrays, objects) are not needed by the
validation claims and are left out of the model. -/
inductive JSPrim where
  | null
  | bool (b : Bool)
  | num (n : JSNum)
  | str (s : String)
deriving DecidableEq, Repr

/-- White-space characters stripped by the ToNumber string conversion
(ECMA-262 StrWhiteSpace, common subset). -/
def jsWhite (c : Char) : Bool :=
  c = ' ' || c = '\t' || c = '\n' || c = '\r' || c = '\x0b' || c = '\x0c'

/-- Strip leading and trailing white space. -/
def jsTrim (l : List Char) : List Char :=
  ((l.dropWhile jsWhite).reverse.dropWhile jsWhite).reverse

/-- Numeric value of a list of decimal digit characters. -/
def decDigits (l : List Char) : Nat :=
  l.foldl (fun a c => 10 * a + (c.toNat - 48)) 0

/-- Hexadecimal digit test. -/
def hexDigit (c : Char) : Bool :=
  c.isDigit || ('a' ≤ c && c ≤ 'f') || ('A' ≤ c && c ≤ 'F')

/-- Value of one hexadecimal digit character. -/
def hexDigitVal (c : Char) : Nat :=
  if c.isDigit then c.toNat - 48 else if 'a' ≤ c then c.toNat - 87 else c.toNat - 55

/-- Numeric value of a list of hexadecimal digit characters. -/
def hexDigits (l : List Char) : Nat :=
  l.foldl (fun a c => 16 * a + hexDigitVal c) 0

/-- Octal digit test. -/
def octDigit (c : Char) : Bool := '0' ≤ c && c ≤ '7'

/-- Numeric value of a list of octal digit characters. -/
def octDigits (l : List Char) : Nat :=
  l.foldl (fun a c => 8 * a + (c.toNat - 48)) 0

/-- Binary digit test. -/
def binDigit (c : Char) : Bool := c = '0' || c = '1'

/-- Numeric value of a list of binary digit characters. -/
def binDigits (l : List Char) : Nat :=
  l.foldl (fun a c => 2 * a + (c.toNat - 48)) 0

/-- Split a decimal literal at the exponent marker (e or E); the mantissa part
contains only digits, a dot or a sign, so lowering case first is harmless. -/
def splitExpParts (l : List Char) : List (List Char) :=
  (l.map Char.toLower).splitOn 'e'

/-- Parse a signed exponent part (the digits after the e marker). -/
def parseExp (l : List Char) : Option Int :=
  match l with
  | '+' :: r => if !r.isEmpty && r.all Char.isDigit then some ((decDigits r : Int)) else none
  | '-' :: r => if !r.isEmpty && r.all Char.isDigit then some (-(decDigits r : Int)) else none
  | r => if !r.isEmpty && r.all Char.isDigit then some ((decDigits r : Int)) else none

/-- Value of a decimal mantissa (digits with an optional dot), when
well-formed: digits, digits dot, digits dot digits, or dot digits. -/
def parseMant (l : List Char) : Option ℚ :=
  match l.splitOn '.' with
  | [ip] => if !ip.isEmpty && ip.all Char.isDigit then some ((decDigits ip : ℚ)) else none
  | [ip, fp] =>
      if (!ip.isEmpty || !fp.isEmpty) && ip.all Char.isDigit && fp.all Char.isDigit then
        some ((decDigits ip : ℚ) + (decDigits fp : ℚ) / ((10 : ℚ) ^ fp.length))
      else none
  | _ => none

/-- Ten to a signed integer power, as a rational. -/
def tenPow (e : Int) : ℚ :=
  if 0 ≤ e then ((10 : ℚ) ^ e.toNat) else (((10 : ℚ) ^ (-e).toNat))⁻¹

/-- Parse an unsigned decimal numeric literal or the Infinity literal
(ECMA-262 StrUnsignedDecimalLiteral), as an exact rational. -/
def parseUnsignedDec (l : List Char) : JSNum :=
  if l = ("Infinity").toList then .posInf else
  match splitExpParts l with
  | [m] =>
      match parseMant m with
      | some q => .val q
      | none => .nan
  | [m, e] =>
      match parseMant m, parseExp e with
      | some q, some ex => .val (q * tenPow ex)
      | _, _ => .nan
  | _ => .nan

/-- Negate a JavaScript number. -/
def jsNeg : JSNum → JSNum
  | .nan => .nan
  | .posInf => .negInf
  | .negInf => .posInf
  | .val q => .val (-q)

/-- ECMA-262 ToNumber applied to a string: trim white space, empty means zero,
hexadecimal, octal and binary literals, otherwise a signed decimal literal or
Infinity, and NaN for everything else.  Exact-rational model: binary64
rounding, overflow to infinity and underflow to zero are not modelled. -/
def stringToNumber (s : String) : JSNum :=
  let l := jsTrim s.toList
  match l with
  | [] => .val 0
  | '0' :: c :: r =>
    if c = 'x' || c = 'X' then
      (if !r.isEmpty && r.all hexDigit then .val ((hexDigits r : ℚ)) else .nan)
    else if c = 'o' || c = 'O' then
      (if !r.isEmpty && r.all octDigit then .val ((octDigits r : ℚ)) else .nan)
    else if c = 'b' || c = 'B' then
      (if !r.isEmpty && r.all binDigit then .val ((binDigits r : ℚ)) else .nan)
    else parseUnsignedDec l
  | '+' :: r => parseUnsignedDec r
  | '-' :: r => jsNeg (parseUnsignedDec r)
  | _ => parseUnsignedDec l

/-- ECMA-262 ToNumber on a primitive value, as applied by the coercing zod
schemas (z.coerce.number calls Number on its input). -/
def toNumber : JSPrim → JSNum
  | .null => .val 0
  | .bool b => .val (if b then 1 else 0)
  | .num n => n
  | .str s => stringToNumber s

/-- Issue codes produced by the zod schemas of src/validation/matches.js. -/
inductive IssueCode where
  | invalidType (expected : String)
  | tooSmall (minimum : ℚ) (inclusive : Bool)
  | tooBig (maximum : ℚ) (inclusive : Bool)
  | invalidFormat (format : String)
  | custom
deriving DecidableEq, Repr

/-- One zod validation issue: the path into the object, the issue code, and
the message configured in the source when one was given there. -/
structure Issue where
  path : List String
  code : IssueCode
  message : Option String
deriving DecidableEq, Repr

/-- Whether an issue aborts the remaining pipeline.  In zod 4 an issue aborts
when its continue flag is not set; for the schemas modelled here that is
exactly the invalid-type issues (type failures of string and number schemas,
missing required keys, NaN or infinite coercion results, and the non-integer
case of the int check), while the range, format and custom issues continue. -/
def Issue.aborting (i : Issue) : Bool :=
  match i.code with
  | .invalidType _ => true
  | _ => false

/-- Whether some issue in the list is aborting. -/
def anyAborting (l : List Issue) : Bool := l.any Issue.aborting

/-- Largest integer zod 4 treats as safe, 2 ^ 53 - 1. -/
def maxSafeInt : ℚ := 9007199254740991

/-- The int check of zod 4 (a safe-integer format check): an aborting
invalid-type issue for non-integers, a continuing range issue for integers
outside the safe range. -/
def checkInt (q : ℚ) : List Issue :=
  if q.den ≠ 1 then [⟨[], .invalidType ("int"), none⟩]
  else if maxSafeInt < q then [⟨[], .tooBig maxSafeInt true, none⟩]
  else if q < -maxSafeInt then [⟨[], .tooSmall (-maxSafeInt) true, none⟩]
  else []

/-- The positive check, an exclusive greater-than-zero bound. -/
def checkPositive (q : ℚ) : List Issue :=
  if 0 < q then [] else [⟨[], .tooSmall 0 false, none⟩]

/-- The max 100 check. -/
def checkMax100 (q : ℚ) : List Issue :=
  if q ≤ 100 then [] else [⟨[], .tooBig 100 true, none⟩]

/-- The min 0 check. -/
def checkMin0 (q : ℚ) : List Issue :=
  if 0 ≤ q then [] else [⟨[], .tooSmall 0 true, none⟩]

/-- Run a list of checks in order on a parsed number.  Once an aborting issue
is present the later checks are skipped (the zod 4 check runner). -/
def runChecks (cs : List (ℚ → List Issue)) (q : ℚ) : List Issue :=
  cs.foldl (fun acc c => if anyAborting acc then acc else acc ++ c q) []

/-- The coercing number schema z.coerce.number(): Number conversion followed
by the finite-number type test (zod 4 rejects NaN and the infinities with an
invalid-type issue). -/
def parseCoercedNumber (v : JSPrim) : List Issue × Option ℚ :=
  match toNumber v with
  | .val q => ([], some q)
  | _ => ([⟨[], .invalidType ("number"), none⟩], none)

/-- Prefix every issue path with the name of the object property. -/
def prefixPath (k : String) (l : List Issue) : List Issue :=
  l.map (fun i => { i with path := k :: i.path })

/-- The limit field of listMatchesQuerySchema:
z.coerce.number().int().positive().max(100).optional().  A missing value is
accepted by the optional wrapper without touching the inner schema. -/
def parseLimitField (v : Option JSPrim) : List Issue :=
  match v with
  | none => []
  | some p =>
    match parseCoercedNumber p with
    | (is, none) => is
    | (_, some q) => runChecks [checkInt, checkPositive, checkMax100] q

/-- listMatchesQuerySchema applied to a query object with an optional limit
member. -/
def listMatchesIssues (limit : Option JSPrim) : List Issue :=
  prefixPath ("limit") (parseLimitField limit)

/-- Whether listMatches query validation succeeds. -/
def listMatchesOk (limit : Option JSPrim) : Bool := (listMatchesIssues limit).isEmpty

/-- The id field of matchIdParamSchema: z.coerce.number().int().positive(),
required.  A missing key coerces Number of undefined, which is NaN, hence an
aborting invalid-type issue. -/
def parseIdField (v : Option JSPrim) : List Issue :=
  match v with
  | none => [⟨[], .invalidType ("number"), none⟩]
  | some p =>
    match parseCoercedNumber p with
    | (is, none) => is
    | (_, some q) => runChecks [checkInt, checkPositive] q

/-- matchIdParamSchema applied to a params object with an optional id member. -/
def matchIdIssues (id : Option JSPrim) : List Issue :=
  prefixPath ("id") (parseIdField id)

/-- Whether matchIdParam validation succeeds. -/
def matchIdOk (id : Option JSPrim) : Bool := (matchIdIssues id).isEmpty

/-- One required score field of updateScoreSchema:
z.coerce.number().int().min(0).  The parsed value is kept even when a
continuing check fails (the dirty payload value of zod). -/
def parseScoreRequired (v : Option JSPrim) : List Issue × Option ℚ :=
  match v with
  | none => ([⟨[], .invalidType ("number"), none⟩], none)
  | some p =>
    match parseCoercedNumber p with
    | (is, none) => (is, none)
    | (_, some q) => (runChecks [checkInt, checkMin0] q, some q)

/-- The parsed output of updateScoreSchema. -/
structure ScorePair where
  homeScore : ℚ
  awayScore : ℚ
deriving DecidableEq, Repr

/-- A request body for the score update, each member an optional primitive. -/
structure UpdateScoreBody where
  homeScore : Option JSPrim
  awayScore : Option JSPrim
deriving DecidableEq, Repr

/-- updateScoreSchema: both homeScore and awayScore are required coerced
non-negative integers; issues of both properties are collected. -/
def updateScoreIssues (b : UpdateScoreBody) : List Issue :=
  prefixPath ("homeScore") (parseScoreRequired b.homeScore).1 ++
  prefixPath ("awayScore") (parseScoreRequired b.awayScore).1

/-- The safeParse result of updateScoreSchema: the converted scores on
success, none on any issue. -/
def updateScoreParse (b : UpdateScoreBody) : Option ScorePair :=
  if (updateScoreIssues b).isEmpty then
    match (parseScoreRequired b.homeScore).2, (parseScoreRequired b.awayScore).2 with
    | some h, some a => some { homeScore := h, awayScore := a }
    | _, _ => none
  else none

/-- Gregorian leap year, exactly the leap-year alternation encoded in the zod
4 calendar-date pattern. -/
def isLeap (y : Nat) : Bool :=
  (y % 4 == 0 && y % 100 != 0) || y % 400 == 0

/-- Number of days in a month of a given year. -/
def daysInMonth (y m : Nat) : Nat :=
  if m == 2 then (if isLeap y then 29 else 28)
  else if m == 4 || m == 6 || m == 9 || m == 11 then 30
  else 31

/-- Trailing fractional seconds then the Z terminator: one or more digits
followed by Z and nothing else. -/
def fracThenZ (l : List Char) : Bool :=
  match l.reverse with
  | 'Z' :: ds => !ds.isEmpty && ds.all Char.isDigit
  | _ => false

/-- Tail of the zod 4 datetime pattern after HH:mm — either the Z terminator
directly, or seconds with an optional fraction and then Z. -/
def isoSecondsTail (l : List Char) : Bool :=
  match l with
  | ['Z'] => true
  | ':' :: s1 :: s2 :: r =>
    s1.isDigit && s2.isDigit && decide (decDigits [s1, s2] ≤ 59) &&
    (match r with
     | ['Z'] => true
     | '.' :: r2 => fracThenZ r2
     | _ => false)
  | _ => false

/-- The default zod 4 z.iso.datetime() pattern: a four-digit year, calendar
valid month and day, the T separator, HH:mm with optional seconds and
fractional seconds, terminated by Z (no offsets, no local form).  Hour,
minute and second are range checked by the pattern. -/
def isoDatetimeValid (s : String) : Bool :=
  match s.toList with
  | y1 :: y2 :: y3 :: y4 :: '-' :: m1 :: m2 :: '-' :: d1 :: d2 :: 'T' :: h1 :: h2 :: ':' :: n1 :: n2 :: rest =>
    ([y1, y2, y3, y4, m1, m2, d1, d2, h1, h2, n1, n2].all Char.isDigit) &&
    (decide (1 ≤ decDigits [m1, m2]) && decide (decDigits [m1, m2] ≤ 12)) &&
    (decide (1 ≤ decDigits [d1, d2]) &&
     decide (decDigits [d1, d2] ≤ daysInMonth (decDigits [y1, y2, y3, y4]) (decDigits [m1, m2]))) &&
    decide (decDigits [h1, h2] ≤ 23) && decide (decDigits [n1, n2] ≤ 59) &&
    isoSecondsTail rest
  | _ => false

/-- Days since 1970-01-01 of a proleptic Gregorian calendar date
(the standard days-from-civil computation with truncating division). -/
def daysFromCivil (y : Int) (m d : Nat) : Int :=
  let yAdj : Int := if m ≤ 2 then y - 1 else y
  let era : Int := (if 0 ≤ yAdj then yAdj else yAdj - 399) / 400
  let yoe : Nat := (yAdj - era * 400).toNat
  let mp : Nat := (m + 9) % 12
  let doy : Nat := (153 * mp + 2) / 5 + d - 1
  let doe : Nat := yoe * 365 + yoe / 4 - yoe / 100 + doy
  era * 146097 + (doe : Int) - 719468

/-- Milliseconds per day. -/
def msPerDay : Int := 86400000

/-- The date component of the date-time string format: YYYY, YYYY-MM or
YYYY-MM-DD, with calendar-valid month and day; omitted parts default to 1. -/
def parseDatePart (l : List Char) : Option (Int × Nat × Nat) :=
  match l with
  | [a, b, c, d] =>
    if [a, b, c, d].all Char.isDigit then some (((decDigits [a, b, c, d] : Int)), 1, 1) else none
  | [a, b, c, d, '-', e, f] =>
    if [a, b, c, d, e, f].all Char.isDigit ∧ 1 ≤ decDigits [e, f] ∧ decDigits [e, f] ≤ 12 then
      some (((decDigits [a, b, c, d] : Int)), decDigits [e, f], 1)
    else none
  | [a, b, c, d, '-', e, f, '-', g, h] =>
    if [a, b, c, d, e, f, g, h].all Char.isDigit ∧ 1 ≤ decDigits [e, f] ∧ decDigits [e, f] ≤ 12 ∧
       1 ≤ decDigits [g, h] ∧
       decDigits [g, h] ≤ daysInMonth (decDigits [a, b, c, d]) (decDigits [e, f]) then
      some (((decDigits [a, b, c, d] : Int)), decDigits [e, f], decDigits [g, h])
    else none
  | _ => none

/-- The time-zone suffix of the date-time string format: Z, or a signed HH:mm
offset; the result is the offset in minutes. -/
def parseTz (l : List Char) : Option Int :=
  match l with
  | ['Z'] => some 0
  | ['+', h1, h2, ':', m1, m2] =>
    if [h1, h2, m1, m2].all Char.isDigit ∧ decDigits [h1, h2] ≤ 23 ∧ decDigits [m1, m2] ≤ 59 then
      some ((decDigits [h1, h2] * 60 + decDigits [m1, m2] : Int))
    else none
  | ['-', h1, h2, ':', m1, m2] =>
    if [h1, h2, m1, m2].all Char.isDigit ∧ decDigits [h1, h2] ≤ 23 ∧ decDigits [m1, m2] ≤ 59 then
      some (-((decDigits [h1, h2] * 60 + decDigits [m1, m2] : Int)))
    else none
  | _ => none

/-- Milliseconds encoded by up to three fractional-second digits; further
digits are truncated. -/
def fracMs (ds : List Char) : Nat :=
  let t := ds.take 3
  decDigits t * 10 ^ (3 - t.length)

/-- The time component after the T separator: HH:mm, optional seconds and
fraction, and a mandatory zone suffix (a time without a zone suffix is
interpreted in local time, which is outside this model). -/
def parseTimePart (l : List Char) : Option (Nat × Nat × Nat × Nat × Int) :=
  match l with
  | h1 :: h2 :: ':' :: n1 :: n2 :: rest =>
    if [h1, h2, n1, n2].all Char.isDigit then
      match rest with
      | ':' :: s1 :: s2 :: rest2 =>
        if s1.isDigit && s2.isDigit then
          match rest2 with
          | '.' :: rest3 =>
            let ds := rest3.takeWhile Char.isDigit
            let tz := rest3.dropWhile Char.isDigit
            if ds.isEmpty then none else
            match parseTz tz with
            | some off =>
              some (decDigits [h1, h2], decDigits [n1, n2], decDigits [s1, s2], fracMs ds, off)
            | none => none
          | _ =>
            match parseTz rest2 with
            | some off => some (decDigits [h1, h2], decDigits [n1, n2], decDigits [s1, s2], 0, off)
            | none => none
        else none
      | _ =>
        match parseTz rest with
        | some off => some (decDigits [h1, h2], decDigits [n1, n2], 0, 0, off)
        | none => none
    else none
  | _ => none

/-- The ECMA-262 time-value bound: valid times are within 8.64e15 ms of the
epoch; values outside are NaN. -/
def timeInBounds (t : Int) : Option Int :=
  if -8640000000000000 ≤ t ∧ t ≤ 8640000000000000 then some t else none

/-- ECMA-262 Date.parse restricted to the date-time string format with an
explicit UTC indicator or numeric offset.  Date-only forms are UTC.
Date-time forms without a zone suffix (interpreted in local time) and the
implementation-defined fallback formats are outside this model and give
none, the NaN result. -/
def dateParse (s : String) : Option Int :=
  match s.toList.splitOn 'T' with
  | [d] =>
    match parseDatePart d with
    | some (y, mo, dy) => timeInBounds (daysFromCivil y mo dy * msPerDay)
    | none => none
  | [d, t] =>
    match parseDatePart d, parseTimePart t with
    | some (y, mo, dy), some (hh, mi, ss, ms, off) =>
      if (hh ≤ 23 ∨ (hh = 24 ∧ mi = 0 ∧ ss = 0 ∧ ms = 0)) ∧ mi ≤ 59 ∧ ss ≤ 59 then
        timeInBounds (daysFromCivil y mo dy * msPerDay +
          ((hh : Int) * 3600000 + (mi : Int) * 60000 + (ss : Int) * 1000 + (ms : Int)) -
          off * 60000)
      else none
    | _, _ => none
  | _ => none

/-- The non-empty string schema z.string().min(1, message). -/
def parseNonEmptyString (msg : String) (v : Option JSPrim) : List Issue × Option String :=
  match v with
  | some (.str s) =>
    ((if s.length < 1 then [⟨[], .tooSmall 1 true, some msg⟩] else []), some s)
  | some _ => ([⟨[], .invalidType ("string"), none⟩], none)
  | none => ([⟨[], .invalidType ("string"), none⟩], none)

/-- The z.iso.datetime() schema: the value must be a string matching the
default ISO datetime pattern; a string that fails the pattern gives a
continuing invalid-format issue and keeps its value in the payload. -/
def parseIsoDatetimeField (v : Option JSPrim) : List Issue × Option String :=
  match v with
  | some (.str s) =>
    ((if isoDatetimeValid s then [] else [⟨[], .invalidFormat ("datetime"), none⟩]), some s)
  | some _ => ([⟨[], .invalidType ("string"), none⟩], none)
  | none => ([⟨[], .invalidType ("string"), none⟩], none)

/-- One optional score field of createMatchSchema:
z.coerce.number().int().min(0).optional(). -/
def parseScoreOptional (v : Option JSPrim) : List Issue × Option ℚ :=
  match v with
  | none => ([], none)
  | some p =>
    match parseCoercedNumber p with
    | (is, none) => (is, none)
    | (_, some q) => (runChecks [checkInt, checkMin0] q, some q)

/-- A createMatch request body: each schema property as an optional
primitive, a missing member being an absent key. -/
structure CreateBody where
  sport : Option JSPrim
  homeTeam : Option JSPrim
  awayTeam : Option JSPrim
  startTime : Option JSPrim
  endTime : Option JSPrim
  homeScore : Option JSPrim
  awayScore : Option JSPrim
deriving DecidableEq, Repr

/-- The payload value of the base object parse of createMatchSchema, handed
to the superRefine checks. -/
structure CreateParsed where
  sport : String
  homeTeam : String
  awayTeam : String
  startTime : String
  endTime : String
  homeScore : Option ℚ
  awayScore : Option ℚ
deriving DecidableEq, Repr

/-- Base object parse of createMatchSchema: every property is parsed
independently and all issues are collected, each with the property name
prefixed to its path. -/
def createBaseIssues (b : CreateBody) : List Issue :=
  prefixPath ("sport") (parseNonEmptyString ("sport is required") b.sport).1 ++
  prefixPath ("homeTeam") (parseNonEmptyString ("homeTeam is required") b.homeTeam).1 ++
  prefixPath ("awayTeam") (parseNonEmptyString ("awayTeam is required") b.awayTeam).1 ++
  prefixPath ("startTime") (parseIsoDatetimeField b.startTime).1 ++
  prefixPath ("endTime") (parseIsoDatetimeField b.endTime).1 ++
  prefixPath ("homeScore") (parseScoreOptional b.homeScore).1 ++
  prefixPath ("awayScore") (parseScoreOptional b.awayScore).1

/-- The payload value of the base parse, available whenever every property
produced one (in particular whenever no property had a type failure). -/
def createBaseValue (b : CreateBody) : Option CreateParsed :=
  match (parseNonEmptyString ("sport is required") b.sport).2,
        (parseNonEmptyString ("homeTeam is required") b.homeTeam).2,
        (parseNonEmptyString ("awayTeam is required") b.awayTeam).2,
        (parseIsoDatetimeField b.startTime).2,
        (parseIsoDatetimeField b.endTime).2 with
  | some sp, some ht, some aw, some st, some et =>
      some { sport := sp, homeTeam := ht, awayTeam := aw, startTime := st, endTime := et,
             homeScore := (parseScoreOptional b.homeScore).2,
             awayScore := (parseScoreOptional b.awayScore).2 }
  | _, _, _, _, _ => none

/-- The superRefine of createMatchSchema: Date.parse both time strings, flag
an unparseable startTime and an unparseable endTime, and flag an endTime
that is not strictly after startTime. -/
def createRefineIssues (p : CreateParsed) : List Issue :=
  (if dateParse p.startTime = none then
     [⟨[], .custom, some ("startTime must be a valid ISO date")⟩] else []) ++
  (if dateParse p.endTime = none then
     [⟨[], .custom, some ("endTime must be a valid ISO date")⟩] else []) ++
  (match dateParse p.startTime, dateParse p.endTime with
   | some a, some b =>
     if b ≤ a then [⟨[], .custom, some ("endTime must be after startTime")⟩] else []
   | _, _ => [])

/-- Whether the base parse of createMatchSchema aborted; zod 4 skips the
schema-level refine checks exactly in that case. -/
def createBaseAborted (b : CreateBody) : Bool := anyAborting (createBaseIssues b)

/-- createMatchSchema.safeParse issues: the base object parse, followed by
the superRefine checks when the base payload has no aborting issue. -/
def createMatchIssues (b : CreateBody) : List Issue :=
  if anyAborting (createBaseIssues b) then createBaseIssues b
  else
    match createBaseValue b with
    | some p => createBaseIssues b ++ createRefineIssues p
    | none => createBaseIssues b

/-- Whether createMatch validation succeeds. -/
def createMatchOk (b : CreateBody) : Bool := (createMatchIssues b).isEmpty

/-- The match-status enumerated type match_status of src/db/schema.js, a
closed three-value type. -/
inductive MatchStatus where
  | scheduled
  | live
  | finished
deriving DecidableEq, Repr

/-- An insert payload for the matches table: columns declared not-null
without a default are required; columns with a declared default or nullable
columns are optional. -/
structure NewMatch where
  sport : String
  homeTeam : String
  awayTeam : String
  status : Option MatchStatus
  startTime : Int
  endTime : Option Int
  homeScore : Option Int
  awayScore : Option Int
deriving DecidableEq, Repr

/-- A stored row of the matches table. -/
structure MatchRow where
  id : Nat
  sport : String
  homeTeam : String
  awayTeam : String
  status : MatchStatus
  startTime : Int
  endTime : Option Int
  homeScore : Int
  awayScore : Int
  createdAt : Int
deriving DecidableEq, Repr

/-- Insert into the matches table: the serial id is assigned, and the column
defaults declared in src/db/schema.js are applied to omitted columns —
status defaults to scheduled, both scores default to 0, createdAt defaults
to now. -/
def insertMatch (nm : NewMatch) (id : Nat) (now : Int) : MatchRow :=
  { id := id, sport := nm.sport, homeTeam := nm.homeTeam, awayTeam := nm.awayTeam,
    status := nm.status.getD MatchStatus.scheduled, startTime := nm.startTime,
    endTime := nm.endTime, homeScore := nm.homeScore.getD 0,
    awayScore := nm.awayScore.getD 0, createdAt := now }

/-- JSON values as stored in the jsonb metadata column. -/
inductive Json where
  | null
  | bool (b : Bool)
  | num (q : ℚ)
  | str (s : String)
  | arr (items : List Json)
  | obj (fields : List (String × Json))

/-- An insert payload for the commentary table of src/db/schema.js: matchId
is required, every other client column optional. -/
structure NewCommentary where
  matchId : Nat
  minute : Option Int
  sequence : Option Int
  period : Option String
  eventType : Option String
  actor : Option String
  team : Option String
  message : Option String
  metadata : Option Json
  tags : Option (List String)

/-- A stored row of the commentary table. -/
structure CommentaryRow where
  id : Nat
  matchId : Nat
  minute : Option Int
  sequence : Option Int
  period : Option String
  eventType : Option String
  actor : Option String
  team : Option String
  message : Option String
  metadata : Option Json
  tags : Option (List String)
  createdAt : Int

/-- Modelled from the spec: the addCommentary storage operation of section
4.2 — the database layer (db.js and the route handlers) is not under src, so
the insert is modelled from the spec over the commentary columns declared in
src/db/schema.js: a serial id is assigned, createdAt is set to now, every
supplied column is stored unchanged, and the new row is added to the store. -/
def insertCommentary (store : List CommentaryRow) (nc : NewCommentary) (now : Int) :
    CommentaryRow × List CommentaryRow :=
  let row : CommentaryRow :=
    { id := store.length + 1, matchId := nc.matchId, minute := nc.minute,
      sequence := nc.sequence, period := nc.period, eventType := nc.eventType,
      actor := nc.actor, team := nc.team, message := nc.message,
      metadata := nc.metadata, tags := nc.tags, createdAt := now }
  (row, row :: store)

/-- Modelled from the spec: reading one commentary row back by id
(the select side of the round trip of section 8). -/
def getCommentary (store : List CommentaryRow) (id : Nat) : Option CommentaryRow :=
  store.find? (fun r => r.id == id)

/-- The creation scenario body of the spec (section 8) without an endTime. -/
def cBodyNoEnd : CreateBody :=
  { sport := some (.str ("football")), homeTeam := some (.str ("Team A")),
    awayTeam := some (.str ("Team B")), startTime := some (.str ("2026-03-01T15:00:00Z")),
    endTime := none, homeScore := none, awayScore := none }

/-- The scenario body with endTime equal to startTime. -/
def cBodyEqTimes : CreateBody :=
  { cBodyNoEnd with endTime := some (.str ("2026-03-01T15:00:00Z")) }

/-- The base payload value of cBodyEqTimes. -/
def cParsedEqTimes : CreateParsed :=
  { sport := "football", homeTeam := "Team A", awayTeam := "Team B",
    startTime := "2026-03-01T15:00:00Z", endTime := "2026-03-01T15:00:00Z",
    homeScore := none, awayScore := none }

/-- A body with sport missing and endTime one hour before startTime. -/
def cBodyNoSportBadOrder : CreateBody :=
  { cBodyNoEnd with sport := none, endTime := some (.str ("2026-03-01T14:00:00Z")) }

/-- A body with empty sport, empty homeTeam and endTime before startTime. -/
def cBodyMultiViol : CreateBody :=
  { cBodyNoEnd with
    sport := some (.str ("")),
    homeTeam := some (.str ("")),
    endTime := some (.str ("2026-03-01T14:00:00Z")) }

/-- A body with empty sport, homeTeam missing and endTime before startTime. -/
def cBodyRefineSkipped : CreateBody :=
  { cBodyNoEnd with
    sport := some (.str ("")),
    homeTeam := none,
    endTime := some (.str ("2026-03-01T14:00:00Z")) }

/-- A body whose three team and sport strings are a given string and whose
times are fixed valid timestamps in the right order. -/
def c9Body (s : String) : CreateBody :=
  { sport := some (.str s), homeTeam := some (.str s), awayTeam := some (.str s),
    startTime := some (.str ("2026-03-01T15:00:00Z")),
    endTime := some (.str ("2026-03-01T17:00:00Z")),
    homeScore := none, awayScore := none }

/-- An insert payload that omits status and both scores. -/
def nmDefault : NewMatch :=
  { sport := "football", homeTeam := "Team A", awayTeam := "Team B", status := none,
    startTime := 1772377200000, endTime := none, homeScore := none, awayScore := none }

/-- An insert payload that supplies status and both scores. -/
def nmFull : NewMatch :=
  { nmDefault with
    status := some MatchStatus.live,
    homeScore := some 85,
    awayScore := some 92 }

theorem mem_isEmpty_false {α : Type} {l : List α} {a : α} (h : a ∈ l) : l.isEmpty = false :=
  List.isEmpty_eq_false.mpr (List.ne_nil_of_mem h)

theorem runChecksAux_eq_nil (q : ℚ) (cs : List (ℚ → List Issue)) (acc : List Issue) :
    List.foldl (fun acc c => if anyAborting acc then acc else acc ++ c q) acc cs = [] ↔
      acc = [] ∧ ∀ c ∈ cs, c q = [] := by
  induction cs generalizing acc with
  | nil => simp
  | cons c cs ih =>
    simp only [List.foldl_cons]
    by_cases hab : anyAborting acc = true
    · rw [if_pos hab, ih]
      have hne : acc ≠ [] := by
        intro h
        subst h
        simp [anyAborting] at hab
      constructor
      · rintro ⟨h, -⟩
        exact absurd h hne
      · rintro ⟨h, -⟩
        exact absurd h hne
    · rw [if_neg hab, ih, List.append_eq_nil]
      constructor
      · rintro ⟨⟨h1, h2⟩, h3⟩
        refine ⟨h1, fun d hd => ?_⟩
        rcases List.mem_cons.mp hd with h | h
        · subst h
          exact h2
        · exact h3 d h
      · rintro ⟨h1, h2⟩
        exact ⟨⟨h1, h2 c (List.mem_cons_self c cs)⟩, fun d hd => h2 d (List.mem_cons_of_mem c hd)⟩

theorem runChecks_eq_nil (cs : List (ℚ → List Issue)) (q : ℚ) :
    runChecks cs q = [] ↔ ∀ c ∈ cs, c q = [] := by
  unfold runChecks
  rw [runChecksAux_eq_nil]
  simp

theorem checkInt_eq_nil (q : ℚ) :
    checkInt q = [] ↔ q.den = 1 ∧ -maxSafeInt ≤ q ∧ q ≤ maxSafeInt := by
  unfold checkInt
  by_cases h1 : q.den = 1
  · by_cases h2 : maxSafeInt < q
    · simp [h1, h2, not_le.mpr h2]
    · by_cases h3 : q < -maxSafeInt
      · simp [h1, h2, h3, not_le.mpr h3]
      · simp [h1, h2, h3, not_lt.mp h2, not_lt.mp h3]
  · simp [h1]

theorem checkPositive_eq_nil (q : ℚ) : checkPositive q = [] ↔ 0 < q := by
  unfold checkPositive
  by_cases h : 0 < q <;> simp [h]

theorem checkMax100_eq_nil (q : ℚ) : checkMax100 q = [] ↔ q ≤ 100 := by
  unfold checkMax100
  by_cases h : q ≤ 100 <;> simp [h]

theorem checkMin0_eq_nil (q : ℚ) : checkMin0 q = [] ↔ 0 ≤ q := by
  unfold checkMin0
  by_cases h : 0 ≤ q <;> simp [h]

theorem rat_int_le_zero_of_lt_one {q : ℚ} (hden : q.den = 1) (h : q < 1) : q ≤ 0 := by
  have hq := Rat.coe_int_num_of_den_eq_one hden
  have h2 : q.num < 1 := by
    rw [← hq] at h
    exact_mod_cast h
  have h3 : q.num ≤ 0 := by omega
  rw [← hq]
  exact_mod_cast h3

theorem rat_int_one_le_of_pos {q : ℚ} (hden : q.den = 1) (h : 0 < q) : 1 ≤ q := by
  have hq := Rat.coe_int_num_of_den_eq_one hden
  have h2 : 0 < q.num := by
    rw [← hq] at h
    exact_mod_cast h
  have h3 : 1 ≤ q.num := by omega
  rw [← hq]
  exact_mod_cast h3

theorem maxSafeInt_nonneg : (0 : ℚ) ≤ maxSafeInt := by norm_num [maxSafeInt]

theorem hundred_le_maxSafeInt : (100 : ℚ) ≤ maxSafeInt := by norm_num [maxSafeInt]

theorem mem_createMatchIssues_of_mem_base {b : CreateBody} {i : Issue}
    (h : i ∈ createBaseIssues b) : i ∈ createMatchIssues b := by
  unfold createMatchIssues
  by_cases hab : anyAborting (createBaseIssues b) = true
  · simp [hab, h]
  · cases hv : createBaseValue b with
    | none => simp [hab, hv, h]
    | some p =>
      rw [if_neg hab]
      exact List.mem_append_left _ h

theorem scoreRequired_nonneg {v : Option JSPrim} {q : ℚ}
    (h1 : (parseScoreRequired v).1 = []) (h2 : (parseScoreRequired v).2 = some q) : 0 ≤ q := by
  cases v with
  | none => simp [parseScoreRequired] at h2
  | some p =>
    rcases htn : toNumber p with _ | _ | _ | q0
    all_goals simp [parseScoreRequired, parseCoercedNumber, htn] at h1 h2
    subst h2
    have hmin := (runChecks_eq_nil _ _).mp h1 checkMin0 (by simp)
    exact (checkMin0_eq_nil _).mp hmin

theorem scoreOptional_nonneg {v : Option JSPrim} {q : ℚ}
    (h1 : (parseScoreOptional v).1 = []) (h2 : (parseScoreOptional v).2 = some q) : 0 ≤ q := by
  cases v with
  | none => simp [parseScoreOptional] at h2
  | some p =>
    rcases htn : toNumber p with _ | _ | _ | q0
    all_goals simp [parseScoreOptional, parseCoercedNumber, htn] at h1 h2
    subst h2
    have hmin := (runChecks_eq_nil _ _).mp h1 checkMin0 (by simp)
    exact (checkMin0_eq_nil _).mp hmin

theorem createBaseIssues_nil_of_ok {b : CreateBody} (h : createMatchOk b = true) :
    createBaseIssues b = [] := by
  unfold createMatchOk at h
  have h0 : createMatchIssues b = [] := List.isEmpty_iff.mp h
  unfold createMatchIssues at h0
  by_cases hab : anyAborting (createBaseIssues b) = true
  · rwa [if_pos hab] at h0
  · rw [if_neg hab] at h0
    cases hv : createBaseValue b with
    | none => rwa [hv] at h0
    | some p =>
      rw [hv] at h0
      exact (List.append_eq_nil.mp h0).1

theorem createBase_score_components_nil {b : CreateBody} (h : createBaseIssues b = []) :
    (parseScoreOptional b.homeScore).1 = [] ∧ (parseScoreOptional b.awayScore).1 = [] := by
  unfold createBaseIssues at h
  rcases List.append_eq_nil.mp h with ⟨h6, hAway⟩
  rcases List.append_eq_nil.mp h6 with ⟨h5, hHome⟩
  refine ⟨?_, ?_⟩
  · have := List.map_eq_nil_iff.mp (by exact hHome)
    exact this
  · have := List.map_eq_nil_iff.mp (by exact hAway)
    exact this

/-- C1 (amended): endTime is required by createMatchSchema — every request
body with endTime absent fails createMatch validation, whatever the other
fields contain. -/
theorem C1_createMatch_requires_endTime :
    ∀ b : CreateBody, b.endTime = none → createMatchOk b = false := by
  intro b h
  have hi : (⟨[("endTime" : String)], .invalidType ("string"), none⟩ : Issue) ∈
      createBaseIssues b := by
    unfold createBaseIssues
    rw [h]
    simp [parseIsoDatetimeField, prefixPath]
  exact mem_isEmpty_false (mem_createMatchIssues_of_mem_base hi)

/-- C1 witness: the spec scenario body without endTime fails validation. -/
theorem C1_witness : cBodyNoEnd.endTime = none ∧ createMatchOk cBodyNoEnd = false :=
  ⟨rfl, C1_createMatch_requires_endTime cBodyNoEnd rfl⟩

/-- C1 counterexample to the claim as stated: a body with non-empty sport,
homeTeam and awayTeam and a valid ISO startTime that omits endTime is
rejected by createMatch validation, not accepted. -/
theorem C1_cex :
    cBodyNoEnd.sport = some (.str ("football")) ∧
    1 ≤ ("football" : String).length ∧
    1 ≤ ("Team A" : String).length ∧
    1 ≤ ("Team B" : String).length ∧
    isoDatetimeValid ("2026-03-01T15:00:00Z") = true ∧
    cBodyNoEnd.endTime = none ∧
    createMatchOk cBodyNoEnd = false := by decide

/-- C2 (amended): whenever the base parse of createMatchSchema has no
aborting type failure and both time strings of the parsed payload have a
time value with endTime at or before startTime, validation fails and the
structured error carries the issue with the message that endTime must be
after startTime.  When the base parse aborts (a required field missing or of
the wrong type) validation still fails but this issue is absent, which is
the correction to the claim. -/
theorem C2_endTime_order_message :
    ∀ (b : CreateBody) (p : CreateParsed) (ts te : Int),
      createBaseAborted b = false → createBaseValue b = some p →
      dateParse p.startTime = some ts → dateParse p.endTime = some te → te ≤ ts →
      createMatchOk b = false ∧
      (⟨[], .custom, some ("endTime must be after startTime")⟩ : Issue) ∈ createMatchIssues b := by
  intro b p ts te hab hv hst het hle
  have hr : (⟨[], .custom, some ("endTime must be after startTime")⟩ : Issue) ∈
      createRefineIssues p := by
    unfold createRefineIssues
    rw [hst, het]
    simp [hle]
  have hIss : createMatchIssues b = createBaseIssues b ++ createRefineIssues p := by
    unfold createMatchIssues
    unfold createBaseAborted at hab
    rw [if_neg (by simp [hab]), hv]
  have hmem : (⟨[], .custom, some ("endTime must be after startTime")⟩ : Issue) ∈
      createMatchIssues b := by
    rw [hIss]
    exact List.mem_append_right _ hr
  exact ⟨mem_isEmpty_false hmem, hmem⟩

/-- C2 witness: equal startTime and endTime fail with the endTime message. -/
theorem C2_witness :
    createMatchOk cBodyEqTimes = false ∧
    (⟨[], .custom, some ("endTime must be after startTime")⟩ : Issue) ∈
      createMatchIssues cBodyEqTimes :=
  C2_endTime_order_message cBodyEqTimes cParsedEqTimes 1772377200000 1772377200000
    (by decide) (by decide) (by decide) (by decide) (le_refl _)

/-- C2 counterexample to the claim as stated: a body whose two time strings
parse with endTime before startTime but whose sport field is missing fails
validation without any issue carrying the endTime-order message, because the
aborted base parse skips the superRefine checks. -/
theorem C2_cex :
    dateParse ("2026-03-01T15:00:00Z") = some 1772377200000 ∧
    dateParse ("2026-03-01T14:00:00Z") = some 1772373600000 ∧
    ((1772373600000 : Int) ≤ 1772377200000) ∧
    cBodyNoSportBadOrder.startTime = some (.str ("2026-03-01T15:00:00Z")) ∧
    cBodyNoSportBadOrder.endTime = some (.str ("2026-03-01T14:00:00Z")) ∧
    createMatchOk cBodyNoSportBadOrder = false ∧
    (⟨[], .custom, some ("endTime must be after startTime")⟩ : Issue) ∉
      createMatchIssues cBodyNoSportBadOrder := by decide

/-- C4 (amended): the createMatch error collects every field-level issue of
the base parse (none is dropped in favour of the first), and a request with
an empty sport, an empty homeTeam and an endTime not after startTime reports
all three violations in one error; the correction is that the cross-field
endTime check is skipped when some field has a type-level failure. -/
theorem C4_collects_field_issues :
    (∀ (b : CreateBody) (i : Issue), i ∈ createBaseIssues b → i ∈ createMatchIssues b) ∧
    ((⟨[("sport" : String)], .tooSmall 1 true, some ("sport is required")⟩ : Issue) ∈
        createMatchIssues cBodyMultiViol ∧
      (⟨[("homeTeam" : String)], .tooSmall 1 true, some ("homeTeam is required")⟩ : Issue) ∈
        createMatchIssues cBodyMultiViol ∧
      (⟨[], .custom, some ("endTime must be after startTime")⟩ : Issue) ∈
        createMatchIssues cBodyMultiViol ∧
      createMatchOk cBodyMultiViol = false) :=
  ⟨fun _ _ h => mem_createMatchIssues_of_mem_base h, by decide, by decide, by decide, by decide⟩

/-- C4 witness: a base issue of the multi-violation body is in the final
error via the collection property. -/
theorem C4_witness :
    (⟨[("sport" : String)], .tooSmall 1 true, some ("sport is required")⟩ : Issue) ∈
      createMatchIssues cBodyMultiViol :=
  C4_collects_field_issues.1 cBodyMultiViol _ (by decide)

/-- C4 counterexample to the claim as stated: with an empty sport, a missing
homeTeam and an endTime before startTime, the error reports the sport and
homeTeam violations but not the endTime-order violation, so not every
violation present in the input is reported. -/
theorem C4_cex :
    createMatchOk cBodyRefineSkipped = false ∧
    (⟨[("sport" : String)], .tooSmall 1 true, some ("sport is required")⟩ : Issue) ∈
      createMatchIssues cBodyRefineSkipped ∧
    dateParse ("2026-03-01T15:00:00Z") = some 1772377200000 ∧
    dateParse ("2026-03-01T14:00:00Z") = some 1772373600000 ∧
    cBodyRefineSkipped.startTime = some (.str ("2026-03-01T15:00:00Z")) ∧
    cBodyRefineSkipped.endTime = some (.str ("2026-03-01T14:00:00Z")) ∧
    (⟨[], .custom, some ("endTime must be after startTime")⟩ : Issue) ∉
      createMatchIssues cBodyRefineSkipped := by decide

/-- C9: the non-empty requirement on sport, homeTeam and awayTeam only
checks string length at least one, so every string of length at least one —
whitespace-only strings included — passes, and a body using any such string
for all three fields (with valid, correctly ordered times) validates. -/
theorem C9_length_only_check :
    ∀ s : String, 1 ≤ s.length → createMatchOk (c9Body s) = true := by
  intro s h
  have hlt : ¬(s.length < 1) := not_lt.mpr h
  have h1 : parseNonEmptyString ("sport is required") (some (.str s)) = ([], some s) := by
    simp [parseNonEmptyString, hlt]
  have h2 : parseNonEmptyString ("homeTeam is required") (some (.str s)) = ([], some s) := by
    simp [parseNonEmptyString, hlt]
  have h3 : parseNonEmptyString ("awayTeam is required") (some (.str s)) = ([], some s) := by
    simp [parseNonEmptyString, hlt]
  have h4 : parseIsoDatetimeField (some (.str ("2026-03-01T15:00:00Z"))) =
      ([], some ("2026-03-01T15:00:00Z")) := by decide
  have h5 : parseIsoDatetimeField (some (.str ("2026-03-01T17:00:00Z"))) =
      ([], some ("2026-03-01T17:00:00Z")) := by decide
  have hbase : createBaseIssues (c9Body s) = [] := by
    simp [createBaseIssues, c9Body, h1, h2, h3, h4, h5, parseScoreOptional, prefixPath]
  have hval : createBaseValue (c9Body s) = some
      { sport := s, homeTeam := s, awayTeam := s,
        startTime := "2026-03-01T15:00:00Z", endTime := "2026-03-01T17:00:00Z",
        homeScore := none, awayScore := none } := by
    simp [createBaseValue, c9Body, h1, h2, h3, h4, h5, parseScoreOptional]
  have hrefine : createRefineIssues
      { sport := s, homeTeam := s, awayTeam := s,
        startTime := "2026-03-01T15:00:00Z", endTime := "2026-03-01T17:00:00Z",
        homeScore := none, awayScore := none } = [] := by
    have e1 : dateParse ("2026-03-01T15:00:00Z") = some 1772377200000 := by decide
    have e2 : dateParse ("2026-03-01T17:00:00Z") = some 1772384400000 := by decide
    have e3 : ¬((1772384400000 : Int) ≤ 1772377200000) := by decide
    simp [createRefineIssues, e1, e2, e3]
  unfold createMatchOk createMatchIssues
  rw [hbase]
  simp [anyAborting, hval, hrefine]

/-- C9 witness: a single space passes the non-empty checks and the whole
body validates. -/
theorem C9_witness : 1 ≤ (" " : String).length ∧ createMatchOk (c9Body (" ")) = true :=
  ⟨by decide, C9_length_only_check (" ") (by decide)⟩

/-- C3: listMatches query validation accepts an absent limit and every limit
coercing to an integer in the range 1 to 100, rejects every limit coercing
to an integer outside that range, and rejects limit 101 with a max-bound
issue naming the bound 100. -/
theorem C3_limit_validation :
    listMatchesOk none = true ∧
    (∀ (v : JSPrim) (q : ℚ), toNumber v = JSNum.val q → q.den = 1 → 1 ≤ q → q ≤ 100 →
      listMatchesOk (some v) = true) ∧
    (∀ (v : JSPrim) (q : ℚ), toNumber v = JSNum.val q → q.den = 1 → (q < 1 ∨ 100 < q) →
      listMatchesOk (some v) = false) ∧
    listMatchesOk (some (.str ("101"))) = false ∧
    (⟨[("limit" : String)], .tooBig 100 true, none⟩ : Issue) ∈
      listMatchesIssues (some (.str ("101"))) := by
  refine ⟨by decide, ?_, ?_, by decide, by decide⟩
  · intro v q htn hden h1 h100
    have hint : checkInt q = [] := (checkInt_eq_nil q).mpr
      ⟨hden, by linarith [maxSafeInt_nonneg], by linarith [hundred_le_maxSafeInt]⟩
    have hpos : checkPositive q = [] := (checkPositive_eq_nil q).mpr (by linarith)
    have hmax : checkMax100 q = [] := (checkMax100_eq_nil q).mpr h100
    have hrun : runChecks [checkInt, checkPositive, checkMax100] q = [] := by
      simp [runChecks, anyAborting, hint, hpos, hmax]
    simp [listMatchesOk, listMatchesIssues, parseLimitField, parseCoercedNumber, htn, hrun,
      prefixPath]
  · intro v q htn hden hcase
    have hne : runChecks [checkInt, checkPositive, checkMax100] q ≠ [] := by
      intro hnil
      have hall := (runChecks_eq_nil _ _).mp hnil
      have hpos := (checkPositive_eq_nil q).mp (hall checkPositive (by simp))
      have hmax := (checkMax100_eq_nil q).mp (hall checkMax100 (by simp))
      rcases hcase with h | h
      · have := rat_int_le_zero_of_lt_one hden h
        linarith
      · linarith
    have hi : listMatchesIssues (some v) ≠ [] := by
      simp only [listMatchesIssues, parseLimitField, parseCoercedNumber, htn, prefixPath]
      intro hm
      exact hne (List.map_eq_nil_iff.mp hm)
    exact List.isEmpty_eq_false.mpr hi

/-- C3 witness: limit 5 accepted, limit 0 rejected, both through the range
characterisation. -/
theorem C3_witness :
    toNumber (.str ("5")) = JSNum.val 5 ∧ listMatchesOk (some (.str ("5"))) = true ∧
    listMatchesOk (some (.str ("0"))) = false :=
  ⟨by decide,
   C3_limit_validation.2.1 (.str ("5")) 5 (by decide) (by decide) (by decide) (by decide),
   C3_limit_validation.2.2.1 (.str ("0")) 0 (by decide) (by decide) (Or.inl (by norm_num))⟩

/-- C5 (amended): matchIdParam validation accepts exactly the params whose id
coerces to an integer between 1 and the largest safe integer 2 ^ 53 - 1; it
fails for every other id — 0, negatives, non-numeric strings, non-integers,
and also positive integers beyond the safe range, which is the correction to
the claim. -/
theorem C5_id_accepted_iff :
    ∀ v : Option JSPrim, matchIdOk v = true ↔
      ∃ (p : JSPrim) (q : ℚ), v = some p ∧ toNumber p = JSNum.val q ∧
        q.den = 1 ∧ 1 ≤ q ∧ q ≤ maxSafeInt := by
  intro v
  cases v with
  | none => simp [matchIdOk, matchIdIssues, parseIdField, prefixPath]
  | some p =>
    rcases htn : toNumber p with _ | _ | _ | q
    · simp [matchIdOk, matchIdIssues, parseIdField, parseCoercedNumber, htn, prefixPath]
    · simp [matchIdOk, matchIdIssues, parseIdField, parseCoercedNumber, htn, prefixPath]
    · simp [matchIdOk, matchIdIssues, parseIdField, parseCoercedNumber, htn, prefixPath]
    · constructor
      · intro h
        have h0 : matchIdIssues (some p) = [] := List.isEmpty_iff.mp h
        have hnil : runChecks [checkInt, checkPositive] q = [] := by
          have h1 : parseIdField (some p) = [] := by
            unfold matchIdIssues prefixPath at h0
            exact List.map_eq_nil_iff.mp h0
          simpa [parseIdField, parseCoercedNumber, htn] using h1
        have hall := (runChecks_eq_nil _ _).mp hnil
        have hint := (checkInt_eq_nil q).mp (hall checkInt (by simp))
        have hpos := (checkPositive_eq_nil q).mp (hall checkPositive (by simp))
        exact ⟨p, q, rfl, htn, hint.1, rat_int_one_le_of_pos hint.1 hpos, hint.2.2⟩
      · rintro ⟨p2, q2, hp, htn2, hden, h1, hmax⟩
        injection hp with hpp
        subst hpp
        rw [htn] at htn2
        injection htn2 with hqq
        subst hqq
        have hint : checkInt q = [] := (checkInt_eq_nil q).mpr
          ⟨hden, by linarith [maxSafeInt_nonneg], hmax⟩
        have hpos : checkPositive q = [] := (checkPositive_eq_nil q).mpr (by linarith)
        have hrun : runChecks [checkInt, checkPositive] q = [] := by
          simp [runChecks, anyAborting, hint, hpos]
        simp [matchIdOk, matchIdIssues, parseIdField, parseCoercedNumber, htn, hrun, prefixPath]

/-- C5 witness: id 7 is accepted through the characterisation. -/
theorem C5_witness : matchIdOk (some (.str ("7"))) = true :=
  (C5_id_accepted_iff (some (.str ("7")))).mpr
    ⟨.str ("7"), 7, rfl, by decide, by decide, by decide, by decide⟩

/-- C5 counterexample to the claim as stated: the id string for 2 ^ 53
coerces to a positive integer, yet matchIdParam validation rejects it
(the zod 4 int check bounds integers by the safe range). -/
theorem C5_cex :
    toNumber (.str ("9007199254740992")) = JSNum.val 9007199254740992 ∧
    ((9007199254740992 : ℚ)).den = 1 ∧
    (1 : ℚ) ≤ 9007199254740992 ∧
    matchIdOk (some (.str ("9007199254740992"))) = false := by decide

/-- C6: inserting a match with status, homeScore or awayScore omitted stores
the declared defaults — status scheduled and both scores 0 — while supplied
values override the defaults. -/
theorem C6_insert_defaults :
    (∀ (nm : NewMatch) (id : Nat) (now : Int),
      (nm.status = none → (insertMatch nm id now).status = MatchStatus.scheduled) ∧
      (nm.homeScore = none → (insertMatch nm id now).homeScore = 0) ∧
      (nm.awayScore = none → (insertMatch nm id now).awayScore = 0)) ∧
    (∀ (nm : NewMatch) (id : Nat) (now : Int),
      (∀ st, nm.status = some st → (insertMatch nm id now).status = st) ∧
      (∀ k, nm.homeScore = some k → (insertMatch nm id now).homeScore = k) ∧
      (∀ k, nm.awayScore = some k → (insertMatch nm id now).awayScore = k)) := by
  constructor
  · intro nm id now
    refine ⟨fun h => ?_, fun h => ?_, fun h => ?_⟩ <;> simp [insertMatch, h]
  · intro nm id now
    refine ⟨fun st h => ?_, fun k h => ?_, fun k h => ?_⟩ <;> simp [insertMatch, h]

/-- C6 witness: the defaults on an omitting payload and the overrides on a
full payload, at concrete inserts. -/
theorem C6_witness :
    (insertMatch nmDefault 1 0).status = MatchStatus.scheduled ∧
    (insertMatch nmDefault 1 0).homeScore = 0 ∧
    (insertMatch nmDefault 1 0).awayScore = 0 ∧
    (insertMatch nmFull 2 0).status = MatchStatus.live ∧
    (insertMatch nmFull 2 0).homeScore = 85 ∧
    (insertMatch nmFull 2 0).awayScore = 92 :=
  ⟨(C6_insert_defaults.1 nmDefault 1 0).1 rfl, (C6_insert_defaults.1 nmDefault 1 0).2.1 rfl,
   (C6_insert_defaults.1 nmDefault 1 0).2.2 rfl, (C6_insert_defaults.2 nmFull 2 0).1 _ rfl,
   (C6_insert_defaults.2 nmFull 2 0).2.1 _ rfl, (C6_insert_defaults.2 nmFull 2 0).2.2 _ rfl⟩

/-- C7: the status type admits exactly the three values scheduled, live and
finished, and both validators keep scores non-negative — every successful
updateScore parse yields non-negative scores, and every successful
createMatch validation has non-negative optional scores in its payload. -/
theorem C7_status_enum_scores_nonneg :
    (∀ st : MatchStatus,
      st = MatchStatus.scheduled ∨ st = MatchStatus.live ∨ st = MatchStatus.finished) ∧
    (∀ (b : UpdateScoreBody) (sp : ScorePair), updateScoreParse b = some sp →
      0 ≤ sp.homeScore ∧ 0 ≤ sp.awayScore) ∧
    (∀ b : CreateBody, createMatchOk b = true →
      (∀ q : ℚ, (parseScoreOptional b.homeScore).2 = some q → 0 ≤ q) ∧
      (∀ q : ℚ, (parseScoreOptional b.awayScore).2 = some q → 0 ≤ q)) := by
  refine ⟨?_, ?_, ?_⟩
  · intro st
    cases st
    · exact Or.inl rfl
    · exact Or.inr (Or.inl rfl)
    · exact Or.inr (Or.inr rfl)
  · intro b sp h
    unfold updateScoreParse at h
    by_cases he : (updateScoreIssues b).isEmpty = true
    case neg =>
      rw [if_neg he] at h
      exact absurd h (by simp)
    rw [if_pos he] at h
    have hel : updateScoreIssues b = [] := List.isEmpty_iff.mp he
    unfold updateScoreIssues prefixPath at hel
    rcases List.append_eq_nil.mp hel with ⟨hl, hr⟩
    have hl2 : (parseScoreRequired b.homeScore).1 = [] := List.map_eq_nil_iff.mp hl
    have hr2 : (parseScoreRequired b.awayScore).1 = [] := List.map_eq_nil_iff.mp hr
    rcases hh : (parseScoreRequired b.homeScore).2 with _ | qh
    · rw [hh] at h
      simp at h
    rcases ha : (parseScoreRequired b.awayScore).2 with _ | qa
    · rw [hh, ha] at h
      simp at h
    rw [hh, ha] at h
    have hsp : ({ homeScore := qh, awayScore := qa } : ScorePair) = sp := by
      injection h
    rw [← hsp]
    exact ⟨scoreRequired_nonneg hl2 hh, scoreRequired_nonneg hr2 ha⟩
  · intro b hok
    have hbase := createBaseIssues_nil_of_ok hok
    rcases createBase_score_components_nil hbase with ⟨hhs, has⟩
    exact ⟨fun q hq => scoreOptional_nonneg hhs hq, fun q hq => scoreOptional_nonneg has hq⟩

/-- C7 witness: the enum case split at live and a concrete successful score
update with non-negative results. -/
theorem C7_witness :
    (MatchStatus.live = MatchStatus.scheduled ∨ MatchStatus.live = MatchStatus.live ∨
      MatchStatus.live = MatchStatus.finished) ∧
    (0 : ℚ) ≤ ({ homeScore := 3, awayScore := 2 } : ScorePair).homeScore ∧
    (0 : ℚ) ≤ ({ homeScore := 3, awayScore := 2 } : ScorePair).awayScore := by
  refine ⟨C7_status_enum_scores_nonneg.1 MatchStatus.live, ?_, ?_⟩
  · exact (C7_status_enum_scores_nonneg.2.1
      { homeScore := some (.str ("3")), awayScore := some (.str ("2")) }
      { homeScore := 3, awayScore := 2 } (by decide)).1
  · exact (C7_status_enum_scores_nonneg.2.1
      { homeScore := some (.str ("3")), awayScore := some (.str ("2")) }
      { homeScore := 3, awayScore := 2 } (by decide)).2

/-- C8: a commentary entry inserted with a metadata payload and a tags
sequence is returned unchanged by a subsequent read of that entry — the read
row is the inserted row and its metadata and tags equal the written ones. -/
theorem C8_commentary_roundtrip :
    ∀ (store : List CommentaryRow) (nc : NewCommentary) (now : Int),
      getCommentary (insertCommentary store nc now).2 (insertCommentary store nc now).1.id =
        some (insertCommentary store nc now).1 ∧
      (insertCommentary store nc now).1.metadata = nc.metadata ∧
      (insertCommentary store nc now).1.tags = nc.tags := by
  intro store nc now
  refine ⟨?_, rfl, rfl⟩
  unfold getCommentary insertCommentary
  simp

/-- C10 (amended): updateScore coerces with the Number conversion before the
integer and non-negativity checks, so any primitive values converting to
integers in the safe range 0 to 2 ^ 53 - 1 — numeric strings and the boolean
true included — are accepted and produce the converted integers, while a
value converting to NaN, to a negative number or to a fraction is rejected;
the correction is that integers beyond the safe range are also rejected. -/
theorem C10_score_coercion :
    (∀ (hv av : JSPrim) (qh qa : ℚ),
      toNumber hv = JSNum.val qh → toNumber av = JSNum.val qa →
      qh.den = 1 → 0 ≤ qh → qh ≤ maxSafeInt →
      qa.den = 1 → 0 ≤ qa → qa ≤ maxSafeInt →
      updateScoreParse { homeScore := some hv, awayScore := some av } =
        some { homeScore := qh, awayScore := qa }) ∧
    (∀ (hv : JSPrim) (av : Option JSPrim), toNumber hv = JSNum.nan →
      updateScoreParse { homeScore := some hv, awayScore := av } = none) ∧
    (∀ (hv : JSPrim) (av : Option JSPrim) (qh : ℚ), toNumber hv = JSNum.val qh →
      (qh < 0 ∨ qh.den ≠ 1) →
      updateScoreParse { homeScore := some hv, awayScore := av } = none) ∧
    updateScoreParse { homeScore := some (.str ("3")), awayScore := some (.bool true) } =
      some { homeScore := 3, awayScore := 1 } := by
  refine ⟨?_, ?_, ?_, by decide⟩
  · intro hv av qh qa h1 h2 hd1 hn1 hm1 hd2 hn2 hm2
    have hih : checkInt qh = [] := (checkInt_eq_nil qh).mpr
      ⟨hd1, by linarith [maxSafeInt_nonneg], hm1⟩
    have hmh : checkMin0 qh = [] := (checkMin0_eq_nil qh).mpr hn1
    have hia : checkInt qa = [] := (checkInt_eq_nil qa).mpr
      ⟨hd2, by linarith [maxSafeInt_nonneg], hm2⟩
    have hma : checkMin0 qa = [] := (checkMin0_eq_nil qa).mpr hn2
    have hrh : runChecks [checkInt, checkMin0] qh = [] := by
      simp [runChecks, anyAborting, hih, hmh]
    have hra : runChecks [checkInt, checkMin0] qa = [] := by
      simp [runChecks, anyAborting, hia, hma]
    simp [updateScoreParse, updateScoreIssues, parseScoreRequired, parseCoercedNumber,
      h1, h2, hrh, hra, prefixPath]
  · intro hv av h
    have hne : updateScoreIssues { homeScore := some hv, awayScore := av } ≠ [] := by
      simp [updateScoreIssues, parseScoreRequired, parseCoercedNumber, h, prefixPath]
    unfold updateScoreParse
    rw [if_neg (fun hc => hne (List.isEmpty_iff.mp hc))]
  · intro hv av qh h hcase
    have hne : runChecks [checkInt, checkMin0] qh ≠ [] := by
      intro hnil
      have hall := (runChecks_eq_nil _ _).mp hnil
      have hi := (checkInt_eq_nil qh).mp (hall checkInt (by simp))
      have hm := (checkMin0_eq_nil qh).mp (hall checkMin0 (by simp))
      rcases hcase with hlt | hden
      · linarith
      · exact hden hi.1
    have hne2 : updateScoreIssues { homeScore := some hv, awayScore := av } ≠ [] := by
      simp only [updateScoreIssues, parseScoreRequired, parseCoercedNumber, h, prefixPath]
      intro hm
      rcases List.append_eq_nil.mp hm with ⟨hml, -⟩
      exact hne (List.map_eq_nil_iff.mp hml)
    unfold updateScoreParse
    rw [if_neg (fun hc => hne2 (List.isEmpty_iff.mp hc))]

/-- C10 witness: the numeric strings 4 and 0 are accepted and produce the
converted integers through the acceptance half. -/
theorem C10_witness :
    updateScoreParse { homeScore := some (.str ("4")), awayScore := some (.str ("0")) } =
      some { homeScore := 4, awayScore := 0 } :=
  C10_score_coercion.1 (.str ("4")) (.str ("0")) 4 0 (by decide) (by decide) (by decide)
    (by decide) (by decide) (by decide) (by decide) (by decide)

/-- C10 counterexample to the claim as stated: the string for 2 ^ 53
converts to a non-negative integer, yet updateScore validation rejects the
body carrying it (the zod 4 int check bounds integers by the safe range). -/
theorem C10_cex :
    toNumber (.str ("9007199254740992")) = JSNum.val 9007199254740992 ∧
    ((9007199254740992 : ℚ)).den = 1 ∧
    (0 : ℚ) ≤ 9007199254740992 ∧
    updateScoreParse
      { homeScore := some (.str ("9007199254740992")), awayScore := some (.str ("0")) } =
      none := by decide

end SportWS
